import Mathlib

/-!
Shallow embedding of `lms/djangoapps/instructor_task/tasks_helper/grades.py`
(grade-report generation pipeline) and proofs about it.

Conventions of the embedding:
* Python `OrderedDict`s become association lists (`List (key × value)`),
  preserving insertion order; `.get` / `[]` lookups become `List.lookup`.
* Python `None` / absent values become `Option`; float grade values become
  `Rat` (only structural facts about them are proved).
* Heterogeneous CSV cells (ints, floats, strings, `None`) become the
  inductive type `Cell`.
* External collaborators (grade factory, cohort/team/experiment lookups,
  verification and certificate services, `TaskProgress` from `.runner`) are
  not part of the analysed file; they are modelled from the spec as explicit
  function-valued parameters and records, see `Collaborators` and
  `TaskProgress`.
-/

/-- A scored leaf block (`scorable_block` with `.location` and
`.display_name`) as consumed by `ProblemGradeReport._graded_scorable_blocks_to_header`. -/
structure ScorableBlock where
  location : String
  display_name : String
deriving DecidableEq, Repr

/-- One entry of `grading_context['all_graded_subsections_by_type'][type]`:
a `subsection_block` (location and display name) plus its
`scored_descendants`. -/
structure SubsectionInfo where
  location : String
  display_name : String
  scored_descendants : List ScorableBlock
deriving DecidableEq, Repr

/-- The per-course configuration consumed by the report code: the nested
graded-assignment structure returned by `grading_context_for_course`
(an ordered mapping, assignment type → graded subsections) together with the
course flags read by `CourseGradeReportContext`
(`cohorts_enabled`, `teams_enabled`) and the names of the course's
experiment partitions (`course_experiments`). -/
structure CourseConfig where
  all_graded_subsections_by_type : List (String × List SubsectionInfo)
  cohorts_enabled : Bool
  teams_enabled : Bool
  course_experiments : List String
deriving DecidableEq, Repr

/-- The value stored per assignment type by
`CourseGradeReportContext.graded_assignments`. -/
structure AssignmentInfo where
  subsection_headers : List (String × String)
  average_header : String
  separate_subsection_avg_headers : Bool
deriving DecidableEq, Repr

/-- The subsection header string built in
`CourseGradeReportContext.graded_assignments`:
`"{assignment_type} {subsection_index}: {subsection_name}"`. -/
def subsection_header_name (assignment_type : String) (subsection_index : Nat)
    (subsection_name : String) : String :=
  assignment_type ++ " " ++ toString subsection_index ++ ": " ++ subsection_name

/-- `CourseGradeReportContext.graded_assignments` on the raw
`all_graded_subsections_by_type` mapping: for each assignment type, the
1-based-enumerated subsection headers, the average header (with an
`" (Avg)"` suffix exactly when there is more than one subsection), and the
`separate_subsection_avg_headers` flag (`len(subsection_infos) > 1`). -/
def graded_assignments_of (l : List (String × List SubsectionInfo)) :
    List (String × AssignmentInfo) :=
  l.map (fun p =>
    let headers := p.2.enum.map
      (fun q => (q.2.location, subsection_header_name p.1 (q.1 + 1) q.2.display_name))
    let separate := decide (p.2.length > 1)
    let avg := if separate then p.1 ++ " (Avg)" else p.1
    (p.1, ⟨headers, avg, separate⟩))

/-- `context.graded_assignments` for a course configuration. -/
def graded_assignments (cfg : CourseConfig) : List (String × AssignmentInfo) :=
  graded_assignments_of cfg.all_graded_subsections_by_type

/-- `CourseGradeReport._grades_header` over a derived assignment mapping:
per assignment type, the subsection headers when
`separate_subsection_avg_headers` holds, then always the average header. -/
def grades_header_of (ga : List (String × AssignmentInfo)) : List String :=
  (ga.map (fun p =>
    (if p.2.separate_subsection_avg_headers then p.2.subsection_headers.map Prod.snd else [])
    ++ [p.2.average_header])).flatten

/-- `CourseGradeReport._grades_header(context)`. -/
def grades_header (cfg : CourseConfig) : List String :=
  grades_header_of (graded_assignments cfg)

/-- `CourseGradeReport._success_headers(context)`. -/
def success_headers (cfg : CourseConfig) : List String :=
  ["Student ID", "Email", "Username", "Grade"]
  ++ grades_header cfg
  ++ (if cfg.cohorts_enabled then ["Cohort Name"] else [])
  ++ cfg.course_experiments.map (fun nm => "Experiment Group (" ++ nm ++ ")")
  ++ (if cfg.teams_enabled then ["Team Name"] else [])
  ++ ["Enrollment Track", "Verification Status"]
  ++ ["Certificate Eligible", "Certificate Delivered", "Certificate Type"]

/-- `CourseGradeReport._error_headers()`. -/
def error_headers : List String := ["Student ID", "Username", "Error"]

/-- A graded total / problem score as read by the report code: `earned`,
`possible`, and whether `first_attempted` is set (non-`None`).  The grade
values are floats in the source; they are modelled as rationals. -/
structure ScoreData where
  earned : Rat
  possible : Rat
  first_attempted : Bool
deriving DecidableEq, Repr

/-- The portion of a `CourseGrade` object read by the report code:
`percent`, `letter_grade`, `graded_subsections_by_format`
(assignment type → subsection location → graded total),
`grader_result['grade_breakdown']` (assignment type → `percent`), and
`problem_scores` (block location → score). -/
structure CourseGrade where
  percent : Rat
  letter_grade : Option String
  graded_subsections_by_format : List (String × List (String × ScoreData))
  grade_breakdown : List (String × Rat)
  problem_scores : List (String × ScoreData)
deriving DecidableEq, Repr

/-- One CSV cell: a string, a numeric value, or Python `None`. -/
inductive Cell where
  | str : String → Cell
  | num : Rat → Cell
  | null : Cell
deriving DecidableEq, Repr

/-- A CSV table: a list of rows of cells. -/
abbrev Table := List (List Cell)

/-- The two-level dictionary access
`course_grade.graded_subsections_by_format[assignment_type][subsection_location]`;
`none` models the `KeyError` at either level. -/
def lookup2 (m : List (String × List (String × ScoreData))) (t loc : String) :
    Option ScoreData :=
  match m.lookup t with
  | some inner => inner.lookup loc
  | none => none

/-- The per-subsection cell of `CourseGradeReport._user_grade_results`:
`u'Not Available'` on `KeyError`, `earned / possible` when the subsection
was attempted, `u'Not Attempted'` otherwise. -/
def subsection_grade_cell (course_grade : CourseGrade) (assignment_type loc : String) :
    Cell :=
  match lookup2 course_grade.graded_subsections_by_format assignment_type loc with
  | none => Cell.str "Not Available"
  | some sg =>
    if sg.first_attempted then Cell.num (sg.earned / sg.possible)
    else Cell.str "Not Attempted"

/-- The per-assignment-type average cell of
`CourseGradeReport._user_grade_results`:
`grade_breakdown.get(assignment_type, {}).get('percent')`
(`Cell.null` models the absent case). -/
def average_cell (course_grade : CourseGrade) (assignment_type : String) : Cell :=
  match course_grade.grade_breakdown.lookup assignment_type with
  | some p => Cell.num p
  | none => Cell.null

/-- `CourseGradeReport._user_grade_results(course_grade, context)`:
`[course_grade.percent]` followed by, per assignment type, one cell per
subsection header and — when `separate_subsection_avg_headers` — the
average cell. -/
def user_grade_results (course_grade : CourseGrade) (cfg : CourseConfig) : List Cell :=
  Cell.num course_grade.percent ::
    ((graded_assignments cfg).map (fun p =>
      p.2.subsection_headers.map (fun q => subsection_grade_cell course_grade p.1 q.1)
      ++ (if p.2.separate_subsection_avg_headers then [average_cell course_grade p.1]
          else []))).flatten

/-- The user fields read by the report code. -/
structure User where
  id : Nat
  email : String
  username : String
deriving DecidableEq, Repr

/-- Modelled from the spec: the external collaborators of §6 that the row
compiler calls per user — cohort / experiment-partition / team membership
lookups (each an optional group name), enrollment mode and verification
status, the certificate-information triple
(`certificate_info_for_user(user, course_id, letter_grade, whitelisted)`),
and the certificate whitelist (`CertificateWhitelist` user ids).  None of
these live in the analysed file. -/
structure Collaborators where
  get_cohort : User → Option String
  get_experiment_group : User → String → Option String
  get_team : User → Option String
  enrollment_mode : User → String
  verification_status : User → String
  certificate_info : User → Option String → Bool → Cell × Cell × Cell
  whitelisted_user_ids : List Nat

/-- `CourseGradeReport._user_cohort_group_names(user, context)`. -/
def user_cohort_group_names (collab : Collaborators) (u : User) (cfg : CourseConfig) :
    List Cell :=
  if cfg.cohorts_enabled then
    [Cell.str (match collab.get_cohort u with | some n => n | none => "")]
  else []

/-- `CourseGradeReport._user_experiment_group_names(user, context)`. -/
def user_experiment_group_names (collab : Collaborators) (u : User) (cfg : CourseConfig) :
    List Cell :=
  cfg.course_experiments.map (fun part =>
    Cell.str (match collab.get_experiment_group u part with | some n => n | none => ""))

/-- `CourseGradeReport._user_team_names(user, context)`. -/
def user_team_names (collab : Collaborators) (u : User) (cfg : CourseConfig) : List Cell :=
  if cfg.teams_enabled then
    [Cell.str (match collab.get_team u with | some n => n | none => "")]
  else []

/-- `CourseGradeReport._user_verification_mode(user, context)`. -/
def user_verification_mode (collab : Collaborators) (u : User) : List Cell :=
  [Cell.str (collab.enrollment_mode u), Cell.str (collab.verification_status u)]

/-- `CourseGradeReport._user_certificate_info(user, context, course_grade,
whitelisted_user_ids)`: the certificate triple, with the whitelist
membership test `user.id in whitelisted_user_ids`. -/
def user_certificate_info (collab : Collaborators) (u : User) (g : CourseGrade) :
    List Cell :=
  let t := collab.certificate_info u g.letter_grade (collab.whitelisted_user_ids.contains u.id)
  [t.1, t.2.1, t.2.2]

/-- The success row appended by `CourseGradeReport._rows_for_users` for a
successfully graded user. -/
def success_row (collab : Collaborators) (cfg : CourseConfig) (u : User)
    (g : CourseGrade) : List Cell :=
  [Cell.num u.id, Cell.str u.email, Cell.str u.username]
  ++ user_grade_results g cfg
  ++ user_cohort_group_names collab u cfg
  ++ user_experiment_group_names collab u cfg
  ++ user_team_names collab u cfg
  ++ user_verification_mode collab u
  ++ user_certificate_info collab u g

/-- The error row `[user.id, user.username, err_msg]` appended by
`CourseGradeReport._rows_for_users` when grading failed. -/
def error_row (u : User) (err : String) : List Cell :=
  [Cell.num u.id, Cell.str u.username, Cell.str err]

/-- `CourseGradeReport._rows_for_users(context, users)`: one pass over the
grade-factory results (modelled by `grade_of`, yielding per user the
optional course grade and the error message), appending an error row when
the grade is absent and a success row otherwise, preserving order. -/
def rows_for_users (collab : Collaborators) (cfg : CourseConfig)
    (grade_of : User → Option CourseGrade × String) :
    List User → Table × Table
  | [] => ([], [])
  | u :: rest =>
    let r := rows_for_users collab cfg grade_of rest
    match (grade_of u).1 with
    | none => (r.1, error_row u (grade_of u).2 :: r.2)
    | some g => (success_row collab cfg u g :: r.1, r.2)

/-- The `grouper` helper inside `CourseGradeReport._batch_users`:
`izip_longest(*([iter(iterable)] * chunk_size), fillvalue=None)`, i.e. the
list cut into chunks of `chunk_size`, the final chunk padded with the
`None` filler (modelled by `Option.none`) up to `chunk_size`.  With
`chunk_size = 0` the `izip_longest` of zero iterators is empty. -/
def grouper (chunk_size : Nat) (l : List α) : List (List (Option α)) :=
  match chunk_size, l with
  | 0, _ => []
  | _ + 1, [] => []
  | n + 1, a :: rest =>
    (((a :: rest).take (n + 1)).map some
      ++ List.replicate ((n + 1) - (a :: rest).length) Option.none)
    :: grouper (n + 1) (rest.drop n)
termination_by l.length
decreasing_by
  simp only [List.length_drop, List.length_cons]
  omega

/-- `CourseGradeReport._batch_users(context)`: `grouper(users)` with the
default `chunk_size=1` and `fillvalue=None`. -/
def batch_users (users : List User) : List (List (Option User)) :=
  grouper 1 users

/-- `CourseGradeReport._batched_rows(context)`: one
`(success_rows, error_rows)` pair per batch.  The grade factory consumes
the users of the batch; since `_batch_users` uses chunk size 1 no `None`
filler ever occurs in a batch (proved below), so extracting the present
users is exact. -/
def batched_rows (collab : Collaborators) (cfg : CourseConfig)
    (grade_of : User → Option CourseGrade × String) (users : List User) :
    List (Table × Table) :=
  (batch_users users).map
    (fun b => rows_for_users collab cfg grade_of (b.filterMap id))

/-- Modelled from the spec: the `TaskProgress` counters (§3
ProgressCounters) of the external `.runner` module; `total` may be
unknown, and `attempted`, `succeeded`, `failed`, `skipped` begin at zero
for a fresh run. -/
structure TaskProgress where
  total : Option Nat
  attempted : Nat
  succeeded : Nat
  failed : Nat
  skipped : Nat
deriving DecidableEq, Repr

/-- A fresh `TaskProgress` for a run, counters at zero. -/
def TaskProgress.init (total : Option Nat) : TaskProgress :=
  ⟨total, 0, 0, 0, 0⟩

/-- `CourseGradeReport._compile(context, batched_rows)`:
`izip(*batched_rows)` followed by unpacking into two names raises
`ValueError` when there are zero batches (modelled by `Except.error`);
otherwise it yields the concatenated success rows and error rows and sets
`succeeded`, `failed`, `attempted = succeeded + failed`, `total =
attempted` on the task progress. -/
def compile (progress : TaskProgress) (batched : List (Table × Table)) :
    Except String ((Table × Table) × TaskProgress) :=
  match batched with
  | [] => .error "ValueError: need more than 0 values to unpack"
  | _ :: _ =>
    let success_rows := (batched.map Prod.fst).flatten
    let error_rows := (batched.map Prod.snd).flatten
    let succeeded := success_rows.length
    let failed := error_rows.length
    .ok ((success_rows, error_rows),
      { total := some (succeeded + failed), attempted := succeeded + failed,
        succeeded := succeeded, failed := failed, skipped := progress.skipped })

/-- `CourseGradeReport._upload(...)`: the sequence of
`upload_csv_to_report_store` calls (artifact kind, table).  The success
table (headers prepended) is always uploaded; the error table only when
`len(error_rows) > 0`. -/
def upload (success_hdrs : List String) (success_rows : Table)
    (err_hdrs : List String) (error_rows : Table) : List (String × Table) :=
  [("grade_report", (success_hdrs.map Cell.str) :: success_rows)]
  ++ (if error_rows.length > 0 then
        [("grade_report_err", (err_hdrs.map Cell.str) :: error_rows)]
      else [])

/-- `CourseGradeReport.generate` / `_generate`: headers, batched rows,
`_compile`, `_upload`.  The result is the list of storage-sink calls; the
`ValueError` from `_compile` on an empty population propagates and no
upload happens. -/
def generate (cfg : CourseConfig) (collab : Collaborators)
    (grade_of : User → Option CourseGrade × String) (users : List User) :
    Except String (List (String × Table) × TaskProgress) :=
  let progress := TaskProgress.init Option.none
  match compile progress (batched_rows collab cfg grade_of users) with
  | .error e => .error e
  | .ok (rows, prog) =>
    .ok (upload (success_headers cfg) rows.1 error_headers rows.2, prog)

/-- The per-problem header name built in
`ProblemGradeReport._graded_scorable_blocks_to_header`:
`"{assignment_type} {subsection_index}: {subsection_name} - {scorable_block_name}"`. -/
def problem_header_name (assignment_type : String) (subsection_index : Nat)
    (subsection_name scorable_block_name : String) : String :=
  assignment_type ++ " " ++ toString subsection_index ++ ": "
    ++ subsection_name ++ " - " ++ scorable_block_name

/-- `ProblemGradeReport._graded_scorable_blocks_to_header(course_key)`:
block location → `[header + " (Earned)", header + " (Possible)"]`, in
assignment-type / subsection / scored-descendant order. -/
def graded_scorable_blocks_to_header (cfg : CourseConfig) :
    List (String × List String) :=
  (cfg.all_graded_subsections_by_type.map (fun p =>
    (p.2.enum.map (fun q =>
      q.2.scored_descendants.map (fun blk =>
        let header_name :=
          problem_header_name p.1 (q.1 + 1) q.2.display_name blk.display_name
        (blk.location, [header_name ++ " (Earned)", header_name ++ " (Possible)"])))).flatten)).flatten

/-- The `(earned, possible)` cell pair of `ProblemGradeReport.generate` for
one scorable block: `[u'Not Available', u'Not Available']` on `KeyError`,
`[earned, possible]` when attempted, `[u'Not Attempted', possible]`
otherwise. -/
def earned_possible_cells (course_grade : CourseGrade) (block_location : String) :
    List Cell :=
  match course_grade.problem_scores.lookup block_location with
  | none => [Cell.str "Not Available", Cell.str "Not Available"]
  | some ps =>
    if ps.first_attempted then [Cell.num ps.earned, Cell.num ps.possible]
    else [Cell.str "Not Attempted", Cell.num ps.possible]

/-- The success row appended by `ProblemGradeReport.generate` for one
student: the static fields, the overall percent, then the flattened
earned/possible pairs over the graded scorable blocks. -/
def problem_report_success_row (u : User) (g : CourseGrade)
    (block_locations : List String) : List Cell :=
  [Cell.num u.id, Cell.str u.email, Cell.str u.username, Cell.num g.percent]
  ++ (block_locations.map (earned_possible_cells g)).flatten

/-- The mutable state of the `ProblemGradeReport.generate` loop: the
success table `rows`, the `error_rows` table (both already holding their
header row) and the task progress. -/
structure PGState where
  rows : Table
  error_rows : Table
  progress : TaskProgress
deriving DecidableEq, Repr

/-- One iteration of the `ProblemGradeReport.generate` student loop:
`attempted += 1`; on a missing grade append an error row (message
defaulting to `u'Unknown error'`) and `failed += 1`; otherwise append the
success row and `succeeded += 1`. -/
def pg_step (block_locations : List String) (st : PGState)
    (entry : User × Option CourseGrade × String) : PGState :=
  let u := entry.1
  let prog := st.progress
  match entry.2.1 with
  | none =>
    let msg := if entry.2.2 = "" then "Unknown error" else entry.2.2
    { rows := st.rows,
      error_rows := st.error_rows
        ++ [[Cell.num u.id, Cell.str u.email, Cell.str u.username, Cell.str msg]],
      progress := { prog with attempted := prog.attempted + 1,
                              failed := prog.failed + 1 } }
  | some g =>
    { rows := st.rows ++ [problem_report_success_row u g block_locations],
      error_rows := st.error_rows,
      progress := { prog with attempted := prog.attempted + 1,
                              succeeded := prog.succeeded + 1 } }

/-- The initial state of the `ProblemGradeReport.generate` loop: the
success table holding its header row (static fields, `'Grade'`, the
flattened block headers), the error table holding its header row, and a
fresh `TaskProgress` with `total` the enrolled-student count. -/
def pg_init (total : Nat) (block_headers : List (List String)) : PGState :=
  { rows := [[Cell.str "Student ID", Cell.str "Email", Cell.str "Username",
              Cell.str "Grade"] ++ (block_headers.flatten.map Cell.str)],
    error_rows := [[Cell.str "Student ID", Cell.str "Email", Cell.str "Username",
                    Cell.str "error_msg"]],
    progress := TaskProgress.init (some total) }

/-- The state at the end of the `ProblemGradeReport.generate` student
loop: the loop folded over the enrolled students (the grade factory
modelled by `grade_of`). -/
def pg_final (cfg : CourseConfig)
    (grade_of : User → Option CourseGrade × String) (users : List User) : PGState :=
  let blocks := graded_scorable_blocks_to_header cfg
  users.foldl (fun st u => pg_step (blocks.map Prod.fst) st (u, grade_of u))
    (pg_init users.length (blocks.map Prod.snd))

/-- `ProblemGradeReport.generate`: fold the student loop over the enrolled
students, then upload the success table when `len(rows) > 1` and the error
table when `len(error_rows) > 1`. -/
def problem_report_generate (cfg : CourseConfig)
    (grade_of : User → Option CourseGrade × String) (users : List User) :
    List (String × Table) × TaskProgress :=
  let final := pg_final cfg grade_of users
  ((if final.rows.length > 1 then [("problem_grade_report", final.rows)] else [])
   ++ (if final.error_rows.length > 1 then
        [("problem_grade_report_err", final.error_rows)]
      else []),
   final.progress)

/-- The spec's grade-columns formula, following its words: the sum over
categories of `(num-sub-items if separate-headers else 1) +
(1 if separate-headers else 0)`, where separate-headers holds exactly when
the category has more than one sub-item. -/
def spec_grade_columns (cfg : CourseConfig) : Nat :=
  (cfg.all_graded_subsections_by_type.map
    (fun p => (if p.2.length > 1 then p.2.length else 1)
      + (if p.2.length > 1 then 1 else 0))).sum

/-- The success-table header-column count exactly as the claim states it:
`3 (identity) + [cohort?1:0] + (number of experiment partitions) +
[teams?1:0] + 2 (enrollment/verification) + 3 (certificate) +
grade-columns`. -/
def spec_claimed_header_count (cfg : CourseConfig) : Nat :=
  3 + (if cfg.cohorts_enabled then 1 else 0) + cfg.course_experiments.length
    + (if cfg.teams_enabled then 1 else 0) + 2 + 3 + spec_grade_columns cfg

/-- A concrete course configuration used to instantiate the theorems:
one category with one graded subsection, cohorts and teams enabled, one
experiment partition. -/
def wCfg : CourseConfig :=
  ⟨[("Homework", [⟨"loc1", "H1", [⟨"b1", "P1"⟩]⟩])], true, true, ["split1"]⟩

/-- A second configuration sharing `wCfg`'s graded assignments but no
cohorts, teams or experiments. -/
def wCfg2 : CourseConfig :=
  ⟨[("Homework", [⟨"loc1", "H1", [⟨"b1", "P1"⟩]⟩])], false, false, []⟩

/-- A concrete collaborator record used to instantiate the theorems. -/
def wCollab : Collaborators where
  get_cohort := fun _ => some "cohortA"
  get_experiment_group := fun _ _ => Option.none
  get_team := fun _ => Option.none
  enrollment_mode := fun _ => "audit"
  verification_status := fun _ => "N/A"
  certificate_info := fun _ _ _ => (Cell.str "N", Cell.str "N", Cell.str "")
  whitelisted_user_ids := []

/-- A concrete user used to instantiate the theorems. -/
def wUser : User := ⟨1, "a@example.com", "alice"⟩

/-- A concrete course grade used to instantiate the theorems. -/
def wGrade : CourseGrade :=
  ⟨1, some "B", [("Homework", [("loc1", ⟨1, 2, true⟩)])],
    [("Homework", 1)], [("b1", ⟨1, 2, true⟩)]⟩

/-- A grade factory used for concrete instances: every user grades
successfully with `wGrade`. -/
def wGradeOf : User → Option CourseGrade × String := fun _ => (some wGrade, "")

/-- A course grade with one attempted subsection worth `earned = 1` of
`possible = 2`. -/
def c8Grade : CourseGrade :=
  ⟨0, Option.none, [("Homework", [("loc1", ⟨1, 2, true⟩)])], [], []⟩

theorem graded_assignments_of_cons (p : String × List SubsectionInfo)
    (rest : List (String × List SubsectionInfo)) :
    graded_assignments_of (p :: rest)
      = (p.1, ⟨p.2.enum.map
            (fun q => (q.2.location, subsection_header_name p.1 (q.1 + 1) q.2.display_name)),
          (if decide (p.2.length > 1) then p.1 ++ " (Avg)" else p.1),
          decide (p.2.length > 1)⟩) :: graded_assignments_of rest := rfl

theorem grades_header_of_cons (x : String × AssignmentInfo)
    (xs : List (String × AssignmentInfo)) :
    grades_header_of (x :: xs)
      = ((if x.2.separate_subsection_avg_headers
            then x.2.subsection_headers.map Prod.snd else [])
         ++ [x.2.average_header]) ++ grades_header_of xs := by
  simp [grades_header_of]

theorem grades_header_of_ga_length (l : List (String × List SubsectionInfo)) :
    (grades_header_of (graded_assignments_of l)).length
      = (l.map (fun p => (if p.2.length > 1 then p.2.length else 1)
          + (if p.2.length > 1 then 1 else 0))).sum := by
  induction l with
  | nil => rfl
  | cons p rest ih =>
    rw [graded_assignments_of_cons, grades_header_of_cons]
    by_cases h : p.2.length > 1 <;>
      simp [h, List.length_append, ih, List.enum_length] <;> omega

theorem grades_header_length (cfg : CourseConfig) :
    (grades_header cfg).length = spec_grade_columns cfg :=
  grades_header_of_ga_length cfg.all_graded_subsections_by_type

/-- C2 — counterexample: on a course with no graded categories, no
cohorts, no experiments and no teams, `_success_headers` has 9 columns
(`Student ID`, `Email`, `Username`, `Grade`, the enrollment/verification
pair and the certificate triple), while the claim's formula gives only
3 + 2 + 3 = 8: the claim's segments omit the overall-grade (`"Grade"`)
column. -/
theorem C2_counterexample :
    (success_headers ⟨[], false, false, []⟩).length
      ≠ spec_claimed_header_count ⟨[], false, false, []⟩ := by
  decide

/-- C2 — amended: for every course configuration, the number of
success-table header columns equals 3 (identity) + 1 (overall grade) +
(1 if cohorts enabled else 0) + (number of experiment partitions) +
(1 if teams enabled else 0) + 2 (enrollment/verification) +
3 (certificate) + grade-columns, i.e. the claim's count plus one for the
overall-grade column. -/
theorem C2_amended_header_count (cfg : CourseConfig) :
    (success_headers cfg).length = spec_claimed_header_count cfg + 1 := by
  simp only [success_headers, List.length_append, List.length_map,
    List.length_cons, List.length_nil, grades_header_length,
    spec_claimed_header_count]
  by_cases hc : cfg.cohorts_enabled <;> by_cases ht : cfg.teams_enabled <;>
    simp [hc, ht] <;> omega

theorem grade_cells_length (g : CourseGrade) (l : List (String × List SubsectionInfo))
    (h : ∀ p ∈ l, p.2 ≠ []) :
    (((graded_assignments_of l).map (fun a =>
        a.2.subsection_headers.map (fun q => subsection_grade_cell g a.1 q.1)
        ++ (if a.2.separate_subsection_avg_headers then [average_cell g a.1]
            else []))).flatten).length
      = (grades_header_of (graded_assignments_of l)).length := by
  induction l with
  | nil => rfl
  | cons p rest ih =>
    have hp : p.2 ≠ [] := h p (List.mem_cons_self p rest)
    have hlen : 0 < p.2.length := List.length_pos.mpr hp
    have ihr := ih (fun q hq => h q (List.mem_cons_of_mem p hq))
    rw [graded_assignments_of_cons]
    simp only [List.map_cons, List.flatten_cons, grades_header_of_cons,
      List.length_append]
    by_cases hgt : p.2.length > 1
    · simp [hgt, List.enum_length, ihr]
    · simp [hgt, List.enum_length, ihr]
      omega

theorem user_grade_results_length (g : CourseGrade) (cfg : CourseConfig)
    (h : ∀ p ∈ cfg.all_graded_subsections_by_type, p.2 ≠ []) :
    (user_grade_results g cfg).length = 1 + (grades_header cfg).length := by
  have hc := grade_cells_length g cfg.all_graded_subsections_by_type h
  simp only [user_grade_results, grades_header, graded_assignments,
    List.length_cons, hc]
  omega

/-- C1: for every successfully graded user, the success row built by
`_rows_for_users` has exactly as many values as the header list returned
by `_success_headers`, and segment by segment — identity (3) +
overall-grade-and-per-schema grades (1 + grade headers), cohort,
experiment, team, enrollment/verification (2), certificate (3) — the row
contributes the same number of positions as the corresponding header
segment.  The hypothesis records the shape of the grading context: a
category listed in `all_graded_subsections_by_type` has at least one
graded subsection. -/
theorem C1_row_header_alignment (cfg : CourseConfig) (collab : Collaborators)
    (u : User) (g : CourseGrade)
    (h : ∀ p ∈ cfg.all_graded_subsections_by_type, p.2 ≠ []) :
    (success_row collab cfg u g).length = (success_headers cfg).length ∧
    (user_grade_results g cfg).length = 1 + (grades_header cfg).length ∧
    (user_cohort_group_names collab u cfg).length
      = (if cfg.cohorts_enabled then 1 else 0) ∧
    (user_experiment_group_names collab u cfg).length
      = cfg.course_experiments.length ∧
    (user_team_names collab u cfg).length
      = (if cfg.teams_enabled then 1 else 0) ∧
    (user_verification_mode collab u).length = 2 ∧
    (user_certificate_info collab u g).length = 3 := by
  have hg := user_grade_results_length g cfg h
  refine ⟨?_, hg, ?_, ?_, ?_, rfl, rfl⟩
  · simp only [success_row, success_headers, List.length_append, hg,
      user_cohort_group_names, user_experiment_group_names, user_team_names,
      user_verification_mode, user_certificate_info, List.length_map]
    by_cases hc : cfg.cohorts_enabled <;> by_cases ht : cfg.teams_enabled <;>
      simp [hc, ht] <;> omega
  · by_cases hc : cfg.cohorts_enabled <;> simp [user_cohort_group_names, hc]
  · simp [user_experiment_group_names]
  · by_cases ht : cfg.teams_enabled <;> simp [user_team_names, ht]

theorem C1_row_header_alignment_witness :
    (wCfg.all_graded_subsections_by_type.map Prod.snd).contains [] = false ∧
    (success_row wCollab wCfg wUser wGrade).length
      = (success_headers wCfg).length :=
  ⟨by decide,
   (C1_row_header_alignment wCfg wCollab wUser wGrade (by decide)).1⟩

/-- C3: in the derived schema, a category with exactly one sub-item
contributes the single header equal to the bare category name (no
`" (Avg)"` suffix, no per-sub-item column), and a category with more than
one sub-item contributes, in order, the headers
`"<category> i: <Si>"` for the 1-based positions `i`, followed by
`"<category> (Avg)"`. -/
theorem C3_category_headers (t : String) (subs : List SubsectionInfo) :
    (∀ s, subs = [s] →
      grades_header_of (graded_assignments_of [(t, subs)]) = [t]) ∧
    (1 < subs.length →
      grades_header_of (graded_assignments_of [(t, subs)])
        = subs.enum.map
            (fun q => t ++ " " ++ toString (q.1 + 1) ++ ": " ++ q.2.display_name)
          ++ [t ++ " (Avg)"]) := by
  constructor
  · rintro s rfl
    simp [graded_assignments_of, grades_header_of]
  · intro hgt
    rw [graded_assignments_of_cons]
    simp [grades_header_of, hgt, subsection_header_name, List.map_map,
      Function.comp_def, graded_assignments_of]

theorem C3_category_headers_witness :
    grades_header_of (graded_assignments_of [("Homework", [⟨"l1", "H1", []⟩])])
      = ["Homework"] ∧
    grades_header_of (graded_assignments_of
        [("Homework", [⟨"l1", "H1", []⟩, ⟨"l2", "H2", []⟩, ⟨"l3", "H3", []⟩])])
      = ["Homework 1: H1", "Homework 2: H2", "Homework 3: H3", "Homework (Avg)"] :=
  ⟨(C3_category_headers "Homework" [⟨"l1", "H1", []⟩]).1 ⟨"l1", "H1", []⟩ rfl,
   by
    rw [(C3_category_headers "Homework"
      [⟨"l1", "H1", []⟩, ⟨"l2", "H2", []⟩, ⟨"l3", "H3", []⟩]).2 (by decide)]
    decide⟩

/-- C4: `_rows_for_users` never raises (it is a total function of the
batch), and partitions the batch exactly: every user whose grade result is
absent contributes exactly one error row `[id, username, err_msg]` and no
success row, in batch order, and every user with a present grade result
contributes exactly one success row and no error row, in batch order — a
single user's failure never aborts the batch. -/
theorem C4_failure_isolation (collab : Collaborators) (cfg : CourseConfig)
    (grade_of : User → Option CourseGrade × String) (users : List User) :
    (rows_for_users collab cfg grade_of users).1
      = users.filterMap (fun u => ((grade_of u).1).map (success_row collab cfg u)) ∧
    (rows_for_users collab cfg grade_of users).2
      = (users.filter (fun u => ((grade_of u).1).isNone)).map
          (fun u => error_row u (grade_of u).2) := by
  induction users with
  | nil => exact ⟨rfl, rfl⟩
  | cons u rest ih =>
    rcases h : (grade_of u).1 with _ | g <;>
      simp [rows_for_users, List.filterMap_cons, List.filter_cons, h, ih.1, ih.2]

theorem pg_step_counters (blocks : List String) (st : PGState)
    (entry : User × Option CourseGrade × String) :
    (pg_step blocks st entry).progress.attempted = st.progress.attempted + 1 ∧
    (pg_step blocks st entry).progress.succeeded
        + (pg_step blocks st entry).progress.failed
      = st.progress.succeeded + st.progress.failed + 1 ∧
    st.progress.succeeded ≤ (pg_step blocks st entry).progress.succeeded ∧
    st.progress.failed ≤ (pg_step blocks st entry).progress.failed ∧
    (pg_step blocks st entry).progress.skipped = st.progress.skipped := by
  rcases h : entry.2.1 with _ | g <;> simp [pg_step, h] <;> omega

/-- C5: after every aggregation step the counters satisfy
`attempted = succeeded + failed`, and no counter decreases: (1) the
progress written by `CourseGradeReport._compile` satisfies the equation
(with `total = attempted`), and starting from a fresh run's zero counters
none of them decreases; (2) each iteration of the `ProblemGradeReport`
student loop preserves the equation and never decreases any counter;
(3) hence the equation holds after folding the loop over any batch from
any state satisfying it. -/
theorem C5_progress_invariant :
    (∀ (prog : TaskProgress) (batched : List (Table × Table)) r,
        compile prog batched = Except.ok r →
        (r.2.attempted = r.2.succeeded + r.2.failed ∧
         r.2.total = some r.2.attempted) ∧
        (prog.attempted = 0 ∧ prog.succeeded = 0 ∧ prog.failed = 0 →
          prog.attempted ≤ r.2.attempted ∧ prog.succeeded ≤ r.2.succeeded ∧
          prog.failed ≤ r.2.failed ∧ prog.skipped ≤ r.2.skipped)) ∧
    (∀ (blocks : List String) (st : PGState)
        (entry : User × Option CourseGrade × String),
        (st.progress.attempted = st.progress.succeeded + st.progress.failed →
          (pg_step blocks st entry).progress.attempted
            = (pg_step blocks st entry).progress.succeeded
              + (pg_step blocks st entry).progress.failed) ∧
        st.progress.attempted ≤ (pg_step blocks st entry).progress.attempted ∧
        st.progress.succeeded ≤ (pg_step blocks st entry).progress.succeeded ∧
        st.progress.failed ≤ (pg_step blocks st entry).progress.failed ∧
        st.progress.skipped ≤ (pg_step blocks st entry).progress.skipped) ∧
    (∀ (blocks : List String) (l : List (User × Option CourseGrade × String))
        (st : PGState),
        st.progress.attempted = st.progress.succeeded + st.progress.failed →
        (l.foldl (pg_step blocks) st).progress.attempted
          = (l.foldl (pg_step blocks) st).progress.succeeded
            + (l.foldl (pg_step blocks) st).progress.failed) := by
  refine ⟨?_, ?_, ?_⟩
  · intro prog batched r h
    cases batched with
    | nil => simp [compile] at h
    | cons b bs =>
      simp only [compile] at h
      cases h
      refine ⟨⟨rfl, rfl⟩, fun hz => ?_⟩
      simp [hz.1, hz.2.1, hz.2.2]
  · intro blocks st entry
    have hc := pg_step_counters blocks st entry
    refine ⟨fun hinv => ?_, ?_, hc.2.2.1, hc.2.2.2.1, le_of_eq hc.2.2.2.2.symm⟩
    · omega
    · omega
  · intro blocks l
    induction l with
    | nil => intro st h; exact h
    | cons e rest ih =>
      intro st h
      have hc := pg_step_counters blocks st e
      exact ih (pg_step blocks st e) (by omega)

theorem C5_progress_invariant_witness :
    ((⟨some 1, 1, 1, 0, 0⟩ : TaskProgress).attempted
      = (⟨some 1, 1, 1, 0, 0⟩ : TaskProgress).succeeded
        + (⟨some 1, 1, 1, 0, 0⟩ : TaskProgress).failed) ∧
    (TaskProgress.init Option.none).attempted
      ≤ (⟨some 1, 1, 1, 0, 0⟩ : TaskProgress).attempted ∧
    (pg_step [] (pg_init 1 []) (wUser, (some wGrade, ""))).progress.attempted
      = (pg_step [] (pg_init 1 []) (wUser, (some wGrade, ""))).progress.succeeded
        + (pg_step [] (pg_init 1 []) (wUser, (some wGrade, ""))).progress.failed ∧
    ([(wUser, (some wGrade, ""))].foldl (pg_step []) (pg_init 1 [])).progress.attempted
      = ([(wUser, (some wGrade, ""))].foldl (pg_step []) (pg_init 1 [])).progress.succeeded
        + ([(wUser, (some wGrade, ""))].foldl (pg_step []) (pg_init 1 [])).progress.failed :=
  ⟨((C5_progress_invariant.1 (TaskProgress.init Option.none)
      [([[Cell.num 1]], [])] _ rfl).1).1,
   ((C5_progress_invariant.1 (TaskProgress.init Option.none)
      [([[Cell.num 1]], [])] _ rfl).2 (by decide)).1,
   (C5_progress_invariant.2.1 [] (pg_init 1 []) (wUser, (some wGrade, ""))).1
      (by decide),
   C5_progress_invariant.2.2 [] [(wUser, (some wGrade, ""))] (pg_init 1 [])
      (by decide)⟩

theorem pg_step_tables (blocks : List String) (st : PGState)
    (entry : User × Option CourseGrade × String) :
    (pg_step blocks st entry).error_rows.length + st.progress.failed
      = st.error_rows.length + (pg_step blocks st entry).progress.failed ∧
    (pg_step blocks st entry).rows.length + st.progress.succeeded
      = st.rows.length + (pg_step blocks st entry).progress.succeeded := by
  rcases h : entry.2.1 with _ | g <;> simp [pg_step, h] <;> omega

theorem pg_fold_tables (blocks : List String)
    (grade_of : User → Option CourseGrade × String) (users : List User)
    (st : PGState) :
    ((users.foldl (fun s u => pg_step blocks s (u, grade_of u)) st).error_rows.length
        + st.progress.failed
      = st.error_rows.length
        + (users.foldl (fun s u => pg_step blocks s (u, grade_of u)) st).progress.failed) ∧
    ((users.foldl (fun s u => pg_step blocks s (u, grade_of u)) st).rows.length
        + st.progress.succeeded
      = st.rows.length
        + (users.foldl (fun s u => pg_step blocks s (u, grade_of u)) st).progress.succeeded) := by
  induction users generalizing st with
  | nil => exact ⟨rfl, rfl⟩
  | cons u rest ih =>
    have hs := pg_step_tables blocks st (u, grade_of u)
    have hr := ih (pg_step blocks st (u, grade_of u))
    simp only [List.foldl_cons] at *
    constructor <;> omega

theorem pg_final_table_lengths (cfg : CourseConfig)
    (grade_of : User → Option CourseGrade × String) (users : List User) :
    (pg_final cfg grade_of users).error_rows.length
      = (pg_final cfg grade_of users).progress.failed + 1 ∧
    (pg_final cfg grade_of users).rows.length
      = (pg_final cfg grade_of users).progress.succeeded + 1 := by
  have h := pg_fold_tables ((graded_scorable_blocks_to_header cfg).map Prod.fst)
    grade_of users
    (pg_init users.length ((graded_scorable_blocks_to_header cfg).map Prod.snd))
  have h1 : (pg_init users.length
      ((graded_scorable_blocks_to_header cfg).map Prod.snd)).error_rows.length = 1 := rfl
  have h2 : (pg_init users.length
      ((graded_scorable_blocks_to_header cfg).map Prod.snd)).rows.length = 1 := rfl
  have h3 : (pg_init users.length
      ((graded_scorable_blocks_to_header cfg).map Prod.snd)).progress.failed = 0 := rfl
  have h4 : (pg_init users.length
      ((graded_scorable_blocks_to_header cfg).map Prod.snd)).progress.succeeded = 0 := rfl
  simp only [pg_final]
  omega

/-- C6: the error artifact is uploaded iff the run produced at least one
error row: (1) `CourseGradeReport._upload` emits the `grade_report_err`
call iff `error_rows` is non-empty, and always emits the `grade_report`
(success) call; (2) the `failed` counter written by `_compile` equals the
number of error rows, so the condition is `failed > 0`; (3) for
`ProblemGradeReport.generate` the `problem_grade_report_err` upload
happens iff `failed > 0`, and the success upload depends only on
`succeeded > 0` (unaffected by errors). -/
theorem C6_error_upload_iff :
    (∀ (sh : List String) (s : Table) (eh : List String) (e : Table),
        ((∃ tbl, ("grade_report_err", tbl) ∈ upload sh s eh e) ↔ 0 < e.length) ∧
        ∃ tbl, ("grade_report", tbl) ∈ upload sh s eh e) ∧
    (∀ (prog : TaskProgress) (batched : List (Table × Table)) r,
        compile prog batched = Except.ok r → r.2.failed = r.1.2.length) ∧
    (∀ (cfg : CourseConfig) (grade_of : User → Option CourseGrade × String)
        (users : List User),
        ((∃ tbl, ("problem_grade_report_err", tbl)
            ∈ (problem_report_generate cfg grade_of users).1)
          ↔ 0 < (problem_report_generate cfg grade_of users).2.failed) ∧
        ((∃ tbl, ("problem_grade_report", tbl)
            ∈ (problem_report_generate cfg grade_of users).1)
          ↔ 0 < (problem_report_generate cfg grade_of users).2.succeeded)) := by
  refine ⟨?_, ?_, ?_⟩
  · intro sh s eh e
    constructor
    · by_cases h : 0 < e.length <;> simp [upload, h]
    · exact ⟨(sh.map Cell.str) :: s, by simp [upload]⟩
  · intro prog batched r h
    cases batched with
    | nil => simp [compile] at h
    | cons b bs =>
      simp only [compile] at h
      cases h
      rfl
  · intro cfg grade_of users
    have hlen := pg_final_table_lengths cfg grade_of users
    simp only [problem_report_generate]
    by_cases h1 : (pg_final cfg grade_of users).rows.length > 1 <;>
      by_cases h2 : (pg_final cfg grade_of users).error_rows.length > 1 <;>
        simp [h1, h2] <;> omega

theorem C6_error_upload_iff_witness :
    ((∃ tbl, ("grade_report_err", tbl) ∈ upload ["h"] [] ["e"] [[Cell.null]])
        ↔ 0 < ([[Cell.null]] : Table).length) ∧
    ((⟨some 1, 1, 1, 0, 0⟩ : TaskProgress).failed = ([] : Table).length) :=
  ⟨(C6_error_upload_iff.1 ["h"] [] ["e"] [[Cell.null]]).1,
   C6_error_upload_iff.2.1 (TaskProgress.init Option.none)
     [([[Cell.num 1]], [])] _ rfl⟩

/-- C7: schema derivation is a pure function of the graded-assignment
configuration: re-deriving it from the same configuration yields an
identical header list, in both the per-subsection mode
(`graded_assignments` / `_grades_header`) and the per-problem mode
(`_graded_scorable_blocks_to_header`); and two contexts with the same
graded-assignment configuration yield identical schemas, regardless of
their other fields. -/
theorem C7_schema_derivation_pure (cfg cfg2 : CourseConfig)
    (h : cfg.all_graded_subsections_by_type = cfg2.all_graded_subsections_by_type) :
    grades_header cfg = grades_header cfg ∧
    graded_scorable_blocks_to_header cfg = graded_scorable_blocks_to_header cfg ∧
    grades_header cfg = grades_header cfg2 ∧
    graded_assignments cfg = graded_assignments cfg2 ∧
    graded_scorable_blocks_to_header cfg = graded_scorable_blocks_to_header cfg2 := by
  refine ⟨rfl, rfl, ?_, ?_, ?_⟩ <;>
    simp [grades_header, graded_assignments, graded_scorable_blocks_to_header, h]

theorem C7_schema_derivation_pure_witness :
    wCfg.all_graded_subsections_by_type = wCfg2.all_graded_subsections_by_type ∧
    grades_header wCfg = grades_header wCfg2 :=
  ⟨rfl, (C7_schema_derivation_pure wCfg wCfg2 rfl).2.2.1⟩

/-- C8 — counterexample: for an attempted sub-item with `earned = 1` and
`possible = 2`, the per-subsection success-row cell is
`earned / possible = 1/2`, not the earned value `1` claimed: the claim's
"otherwise the cell is the earned value" does not hold for the
per-subsection (course grade) report. -/
theorem C8_counterexample :
    lookup2 c8Grade.graded_subsections_by_format "Homework" "loc1"
      = some ⟨1, 2, true⟩ ∧
    subsection_grade_cell c8Grade "Homework" "loc1" = Cell.num ((1 : Rat)/2) ∧
    subsection_grade_cell c8Grade "Homework" "loc1" ≠ Cell.num 1 := by
  refine ⟨by decide, rfl, ?_⟩
  intro h
  rw [show subsection_grade_cell c8Grade "Homework" "loc1"
        = Cell.num ((1 : Rat)/2) from rfl] at h
  have h2 : ((1 : Rat)/2) = 1 := by injection h
  norm_num at h2

/-- C8 — amended: for every sub-item column of a success row: if the grade
result contains no entry for the sub-item the cell is `"Not Available"`;
else if the sub-item was never attempted the cell is `"Not Attempted"`
(with the possible-points value still emitted in the per-problem report);
otherwise the cell is the earned fraction `earned / possible` in the
per-subsection report and the pair `earned`, `possible` in the
per-problem report; and each category's average cell is the
category-level percentage looked up by category name from the grade
breakdown, tolerating absence (`None` when the category is missing). -/
theorem C8_amended_cell_values (g : CourseGrade) (t loc blk : String) :
    (lookup2 g.graded_subsections_by_format t loc = Option.none →
      subsection_grade_cell g t loc = Cell.str "Not Available") ∧
    (∀ sg, lookup2 g.graded_subsections_by_format t loc = some sg →
      (sg.first_attempted = false →
        subsection_grade_cell g t loc = Cell.str "Not Attempted") ∧
      (sg.first_attempted = true →
        subsection_grade_cell g t loc = Cell.num (sg.earned / sg.possible))) ∧
    (g.grade_breakdown.lookup t = Option.none → average_cell g t = Cell.null) ∧
    (∀ p, g.grade_breakdown.lookup t = some p → average_cell g t = Cell.num p) ∧
    (g.problem_scores.lookup blk = Option.none →
      earned_possible_cells g blk
        = [Cell.str "Not Available", Cell.str "Not Available"]) ∧
    (∀ ps, g.problem_scores.lookup blk = some ps →
      (ps.first_attempted = false →
        earned_possible_cells g blk
          = [Cell.str "Not Attempted", Cell.num ps.possible]) ∧
      (ps.first_attempted = true →
        earned_possible_cells g blk = [Cell.num ps.earned, Cell.num ps.possible])) := by
  refine ⟨fun h => by simp [subsection_grade_cell, h],
    fun sg h => ⟨fun ha => by simp [subsection_grade_cell, h, ha],
      fun ha => by simp [subsection_grade_cell, h, ha]⟩,
    fun h => by simp [average_cell, h],
    fun p h => by simp [average_cell, h],
    fun h => by simp [earned_possible_cells, h],
    fun ps h => ⟨fun ha => by simp [earned_possible_cells, h, ha],
      fun ha => by simp [earned_possible_cells, h, ha]⟩⟩

theorem C8_amended_cell_values_witness :
    subsection_grade_cell wGrade "Homework" "missing" = Cell.str "Not Available" ∧
    subsection_grade_cell wGrade "Homework" "loc1" = Cell.num ((1 : Rat) / 2) ∧
    average_cell wGrade "Homework" = Cell.num 1 ∧
    earned_possible_cells wGrade "b1" = [Cell.num 1, Cell.num 2] :=
  ⟨(C8_amended_cell_values wGrade "Homework" "missing" "b1").1 (by decide),
   ((C8_amended_cell_values wGrade "Homework" "loc1" "b1").2.1
      ⟨1, 2, true⟩ (by decide)).2 rfl,
   (C8_amended_cell_values wGrade "Homework" "loc1" "b1").2.2.2.1
      1 (by decide),
   ((C8_amended_cell_values wGrade "Homework" "loc1" "b1").2.2.2.2.2
      ⟨1, 2, true⟩ (by decide)).2 rfl⟩

theorem grouper_one (l : List α) : grouper 1 l = l.map (fun a => [some a]) := by
  induction l with
  | nil => simp [grouper]
  | cons a rest ih => simp [grouper, ih]

theorem batched_rows_flatten (collab : Collaborators) (cfg : CourseConfig)
    (grade_of : User → Option CourseGrade × String) (users : List User) :
    ((batched_rows collab cfg grade_of users).map Prod.fst).flatten
      = (rows_for_users collab cfg grade_of users).1 ∧
    ((batched_rows collab cfg grade_of users).map Prod.snd).flatten
      = (rows_for_users collab cfg grade_of users).2 := by
  unfold batched_rows batch_users
  rw [grouper_one, List.map_map]
  induction users with
  | nil => exact ⟨rfl, rfl⟩
  | cons u rest ih =>
    rcases h : (grade_of u).1 with _ | g <;>
      simp_all [rows_for_users, h, Function.comp_def]

/-- C9: the `None` filler of the batch iterator never reaches any emitted
row: with the source's chunk size of 1 every element of every batch is a
present user (`grouper(users)` is exactly the singleton batches of the
population), and the success and error tables compiled from the batched
pipeline are exactly those of `_rows_for_users` applied to the population
itself — the filler neither appears as a row nor contributes to one. -/
theorem C9_no_filler_in_rows (collab : Collaborators) (cfg : CourseConfig)
    (grade_of : User → Option CourseGrade × String) (users : List User) :
    ((batch_users users).all (fun b => b.all (fun x => x.isSome)) = true) ∧
    batch_users users = users.map (fun u => [some u]) ∧
    ((batched_rows collab cfg grade_of users).map Prod.fst).flatten
      = (rows_for_users collab cfg grade_of users).1 ∧
    ((batched_rows collab cfg grade_of users).map Prod.snd).flatten
      = (rows_for_users collab cfg grade_of users).2 := by
  have hb : batch_users users = users.map (fun u => [some u]) := grouper_one users
  refine ⟨?_, hb, (batched_rows_flatten collab cfg grade_of users).1,
    (batched_rows_flatten collab cfg grade_of users).2⟩
  rw [hb]
  simp

/-- C10: on an empty enrolled population the batch iterator yields zero
batches and `_compile`'s tuple-unpacking of `izip(*batched_rows)` fails
(`ValueError`), so `generate` aborts with no upload; on any non-empty
population `generate` succeeds, the batched pipeline yielding exactly one
`(success_rows, error_rows)` pair per batch. -/
theorem C10_empty_population_unpack (cfg : CourseConfig) (collab : Collaborators)
    (grade_of : User → Option CourseGrade × String) :
    batch_users [] = [] ∧
    generate cfg collab grade_of []
      = Except.error "ValueError: need more than 0 values to unpack" ∧
    (∀ users : List User, users ≠ [] →
      ∃ r, generate cfg collab grade_of users = Except.ok r) ∧
    (∀ users : List User,
      (batched_rows collab cfg grade_of users).length = (batch_users users).length) := by
  refine ⟨by rw [batch_users, grouper_one]; rfl, ?_, ?_, ?_⟩
  · simp [generate, batched_rows, batch_users, grouper_one, compile]
  · intro users hne
    obtain ⟨u, rest, rfl⟩ := List.exists_cons_of_ne_nil hne
    simp [generate, batched_rows, batch_users, grouper_one, compile]
  · intro users
    simp [batched_rows]

theorem C10_empty_population_unpack_witness :
    ([wUser] ≠ []) ∧
    (generate wCfg wCollab wGradeOf [wUser]).toOption.isSome = true := by
  refine ⟨by simp, ?_⟩
  obtain ⟨r, hr⟩ :=
    (C10_empty_population_unpack wCfg wCollab wGradeOf).2.2.1 [wUser] (by simp)
  rw [hr]
  rfl

